import Mathlib

/-!
Verification of the Google Sheets integration client
(`src/intergrations/src/services/googleSheetsAPI.ts` and
`src/intergrations/src/components/GoogleSheetsIntegration.tsx`).

The TypeScript code is shallowly embedded: each HTTP call is parameterized
by the network outcome it would observe (an `Except` value standing for the
resolved response or a transport failure), so every `async` handler becomes
a pure function from the current controller state and the network outcome
to the next controller state.  The JSX render of the component is embedded
as pure functions from the controller state to the displayed data
(table rows, disabled flags of the actionable elements).
-/

/-! ## Data model (interfaces of googleSheetsAPI.ts) -/

/-- One sheet tab inside a spreadsheet, as listed by the backend
(`sheets` entries of `SpreadsheetInfo` in googleSheetsAPI.ts). -/
structure SheetInfo where
  sheet_id : Int
  title : String
  sheet_index : Int
  sheet_type : String
deriving DecidableEq

/-- A spreadsheet summary (`SpreadsheetInfo` in googleSheetsAPI.ts). -/
structure SpreadsheetInfo where
  spreadsheet_id : String
  title : String
  sheets : List SheetInfo
deriving DecidableEq

/-- A sheet preview (`SheetData` in googleSheetsAPI.ts). -/
structure SheetData where
  spreadsheet_id : String
  sheet_name : String
  data : List (List String)
  headers : List String
deriving DecidableEq

/-- Response body of `GET /auth/status`. -/
structure AuthStatusResponse where
  authenticated : Bool
deriving DecidableEq

/-- Response body of `GET /auth/login`. -/
structure LoginResponse where
  auth_url : String
deriving DecidableEq

/-- Outcome of one HTTP request: `.ok` with the parsed response body, or
`.error ()` for any transport/network failure (the `catch` path of the
TypeScript `try`/`catch`). -/
abbrev NetResult (α : Type) := Except Unit α

/-! ## encodeURIComponent

JavaScript's `encodeURIComponent` leaves the unreserved characters
`A-Z a-z 0-9 - _ . ! ~ * ' ( )` unchanged and percent-encodes every UTF-8
byte of every other character as `%XX` with uppercase hex digits
(ECMA-262 §19.2.6.5). -/

/-- Characters `encodeURIComponent` leaves unescaped. -/
def isUnreservedURIChar (c : Char) : Bool :=
  (c ≥ 'A' && c ≤ 'Z') || (c ≥ 'a' && c ≤ 'z') || (c ≥ '0' && c ≤ '9') ||
  c = '-' || c = '_' || c = '.' || c = '!' || c = '~' || c = '*' ||
  c = Char.ofNat 39 || c = '(' || c = ')'

/-- UTF-8 byte sequence of a Unicode code point. -/
def utf8Bytes (n : Nat) : List Nat :=
  if n < 0x80 then [n]
  else if n < 0x800 then [0xC0 + n / 0x40, 0x80 + n % 0x40]
  else if n < 0x10000 then
    [0xE0 + n / 0x1000, 0x80 + (n / 0x40) % 0x40, 0x80 + n % 0x40]
  else
    [0xF0 + n / 0x40000, 0x80 + (n / 0x1000) % 0x40,
     0x80 + (n / 0x40) % 0x40, 0x80 + n % 0x40]

/-- Uppercase hexadecimal digit. -/
def hexDigit (n : Nat) : Char :=
  if n < 10 then Char.ofNat (48 + n) else Char.ofNat (65 + n - 10)

/-- Percent-encoding of a single byte, `%XX`. -/
def percentByte (b : Nat) : String :=
  "%" ++ String.singleton (hexDigit (b / 16)) ++ String.singleton (hexDigit (b % 16))

/-- JavaScript `encodeURIComponent`. -/
def encodeURIComponent (s : String) : String :=
  String.join (s.data.map fun c =>
    if isUnreservedURIChar c then String.singleton c
    else String.join ((utf8Bytes c.toNat).map percentByte))

/-! ## API client (class GoogleSheetsAPI) -/

/-- Backend origin (googleSheetsAPI.ts line 3). -/
def API_BASE_URL : String := "http://localhost:8082"

/-- `checkAuthStatus`: returns `response.data.authenticated` when the request
resolves, and `false` on any error (the `catch` branch returns `false`
instead of rethrowing).  Total: no error escapes to the caller. -/
def GoogleSheetsAPI.checkAuthStatus (resp : NetResult AuthStatusResponse) : Bool :=
  match resp with
  | .ok r => r.authenticated
  | .error _ => false

/-- `initiateLogin`: returns `response.data.auth_url`, or throws
`Failed to initiate Google OAuth`. -/
def GoogleSheetsAPI.initiateLogin (resp : NetResult LoginResponse) : Except String String :=
  match resp with
  | .ok r => .ok r.auth_url
  | .error _ => .error "Failed to initiate Google OAuth"

/-- `logout`: resolves to nothing, or throws `Failed to logout`. -/
def GoogleSheetsAPI.logout (resp : NetResult Unit) : Except String Unit :=
  match resp with
  | .ok _ => .ok ()
  | .error _ => .error "Failed to logout"

/-- `getSpreadsheets`: returns `response.data`, or throws
`Failed to fetch spreadsheets`. -/
def GoogleSheetsAPI.getSpreadsheets (resp : NetResult (List SpreadsheetInfo)) :
    Except String (List SpreadsheetInfo) :=
  match resp with
  | .ok l => .ok l
  | .error _ => .error "Failed to fetch spreadsheets"

/-- The URL `getSheetData` requests:
`API_BASE_URL/spreadsheet/{spreadsheetId}/sheet/{encodeURIComponent(sheetName)}`. -/
def GoogleSheetsAPI.sheetDataUrl (spreadsheetId sheetName : String) : String :=
  API_BASE_URL ++ "/spreadsheet/" ++ spreadsheetId ++ "/sheet/" ++
    encodeURIComponent sheetName

/-- `getSheetData`: returns `response.data`, or throws
`Failed to fetch sheet data`.  The `spreadsheetId`/`sheetName` arguments
determine `GoogleSheetsAPI.sheetDataUrl`; the result only reflects what the
request at that URL resolved to. -/
def GoogleSheetsAPI.getSheetData (_spreadsheetId _sheetName : String)
    (resp : NetResult SheetData) : Except String SheetData :=
  match resp with
  | .ok d => .ok d
  | .error _ => .error "Failed to fetch sheet data"

/-! ## Controller state (the useState hooks of GoogleSheetsIntegration.tsx) -/

/-- The component's state: one field per `useState` hook, with the hooks'
initial values collected in `initialState`. -/
structure State where
  isAuthenticated : Bool
  isLoading : Bool
  spreadsheets : List SpreadsheetInfo
  selectedSpreadsheet : Option SpreadsheetInfo
  selectedSheet : String
  sheetData : Option SheetData
  error : String
deriving DecidableEq

/-- Initial state of the hooks: `useState(false)`, `useState(false)`,
`useState([])`, `useState(null)`, `useState('')`, `useState(null)`,
`useState('')`. -/
def initialState : State :=
  { isAuthenticated := false, isLoading := false, spreadsheets := [],
    selectedSpreadsheet := none, selectedSheet := "", sheetData := none,
    error := "" }

/-! ## Controller handlers (GoogleSheetsIntegration.tsx)

Each `async` handler is embedded as a pure function.  Where the handler
first mutates state and then awaits a request, the pre-request state is
factored out as a `...Start` function, so that the state visible while the
request is in flight is a definition of its own. -/

/-- Pre-request phase of `handleLogin`: `setIsLoading(true); setError('')`. -/
def GoogleSheetsIntegration.handleLoginStart (s : State) : State :=
  { s with isLoading := true, error := "" }

/-- `handleLogin`: clears the error banner, sets loading, then awaits
`initiateLogin`.  On success the browser navigates to the auth URL, so the
state at the moment of navigation is the start state; on failure the error
banner is set and loading is reset. -/
def GoogleSheetsIntegration.handleLogin (s : State) (resp : NetResult LoginResponse) : State :=
  match GoogleSheetsAPI.initiateLogin resp with
  | .ok _ => GoogleSheetsIntegration.handleLoginStart s
  | .error _ =>
      { GoogleSheetsIntegration.handleLoginStart s with
        error := "Failed to initiate Google login", isLoading := false }

/-- `handleLogout`: awaits `logout`; on success clears the authenticated
flag, the spreadsheet list, the selection, the sheet name and the preview;
on failure only sets the error banner. -/
def GoogleSheetsIntegration.handleLogout (s : State) (resp : NetResult Unit) : State :=
  match GoogleSheetsAPI.logout resp with
  | .ok _ =>
      { s with
        isAuthenticated := false, spreadsheets := [],
        selectedSpreadsheet := none, selectedSheet := "", sheetData := none }
  | .error _ => { s with error := "Failed to logout" }

/-- Pre-request phase of `loadSpreadsheets`:
`setIsLoading(true); setError('')`. -/
def GoogleSheetsIntegration.loadSpreadsheetsStart (s : State) : State :=
  { s with isLoading := true, error := "" }

/-- Post-response phase of `loadSpreadsheets`: stores the list or sets the
error banner; the `finally` block resets loading in both branches. -/
def GoogleSheetsIntegration.loadSpreadsheetsFinish (s : State)
    (resp : NetResult (List SpreadsheetInfo)) : State :=
  match GoogleSheetsAPI.getSpreadsheets resp with
  | .ok sheets => { s with spreadsheets := sheets, isLoading := false }
  | .error _ => { s with error := "Failed to load spreadsheets", isLoading := false }

/-- `loadSpreadsheets` (also the Refresh button's handler). -/
def GoogleSheetsIntegration.loadSpreadsheets (s : State)
    (resp : NetResult (List SpreadsheetInfo)) : State :=
  GoogleSheetsIntegration.loadSpreadsheetsFinish
    (GoogleSheetsIntegration.loadSpreadsheetsStart s) resp

/-- The component's own `checkAuthStatus`: stores the API client's result in
`isAuthenticated` and, when authenticated, awaits `loadSpreadsheets`. -/
def GoogleSheetsIntegration.checkAuthStatus (s : State)
    (authResp : NetResult AuthStatusResponse)
    (listResp : NetResult (List SpreadsheetInfo)) : State :=
  let authenticated := GoogleSheetsAPI.checkAuthStatus authResp
  let s1 := { s with isAuthenticated := authenticated }
  if authenticated then GoogleSheetsIntegration.loadSpreadsheets s1 listResp else s1

/-- `handleSpreadsheetSelect`: synchronous and request-free; stores the
clicked spreadsheet and clears the sheet selection and the preview. -/
def GoogleSheetsIntegration.handleSpreadsheetSelect (s : State)
    (spreadsheet : SpreadsheetInfo) : State :=
  { s with
    selectedSpreadsheet := some spreadsheet, selectedSheet := "",
    sheetData := none }

/-- Pre-request phase of `handleSheetSelect` (after its guard):
`setIsLoading(true); setError(''); setSelectedSheet(sheetName)`. -/
def GoogleSheetsIntegration.handleSheetSelectStart (s : State) (sheetName : String) : State :=
  { s with isLoading := true, error := "", selectedSheet := sheetName }

/-- `handleSheetSelect`: returns unchanged when no spreadsheet is selected;
otherwise records the sheet name, awaits `getSheetData`, and stores the
preview or the error banner; `finally` resets loading. -/
def GoogleSheetsIntegration.handleSheetSelect (s : State) (sheetName : String)
    (resp : NetResult SheetData) : State :=
  match s.selectedSpreadsheet with
  | none => s
  | some sel =>
      let s1 := GoogleSheetsIntegration.handleSheetSelectStart s sheetName
      match GoogleSheetsAPI.getSheetData sel.spreadsheet_id sheetName resp with
      | .ok d => { s1 with sheetData := some d, isLoading := false }
      | .error _ => { s1 with error := "Failed to load sheet data", isLoading := false }

/-- Pre-request phase of `sendToBackend` (after its guard):
`setIsLoading(true); setError('')`. -/
def GoogleSheetsIntegration.sendToBackendStart (s : State) : State :=
  { s with isLoading := true, error := "" }

/-- `sendToBackend`: returns unchanged when no preview is loaded; otherwise
clears the error banner and simulates the request (which always resolves),
so the net effect is a cleared banner with loading reset by `finally`. -/
def GoogleSheetsIntegration.sendToBackend (s : State) : State :=
  match s.sheetData with
  | none => s
  | some _ => { GoogleSheetsIntegration.sendToBackendStart s with isLoading := false }

/-- `URLSearchParams.get`: the value of the first pair with the given key,
`null` (`none`) when the key is absent. -/
def getParam (q : List (String × String)) (k : String) : Option String :=
  (q.find? fun p => p.1 = k).map (·.2)

/-- JavaScript `v || d` where `v` is `urlParams.get(k)`: the default is
used both when the parameter is absent (`null`) and when its value is the
empty string (both are falsy). -/
def jsOrDefault (v : Option String) (d : String) : String :=
  match v with
  | none => d
  | some s => if s = "" then d else s

/-- The OAuth-callback branch of the mount effect: reads the `auth` query
parameter; `success` flips the authenticated flag, `error` sets the banner
to `urlParams.get('message') || 'Authentication failed'`; both strip the
whole query from the visible URL via `history.replaceState`.  Returns the
next state and the remaining query. -/
def GoogleSheetsIntegration.handleOAuthCallback (s : State)
    (q : List (String × String)) : State × List (String × String) :=
  if getParam q "auth" = some "success" then
    ({ s with isAuthenticated := true }, [])
  else if getParam q "auth" = some "error" then
    ({ s with error := jsOrDefault (getParam q "message") "Authentication failed" }, [])
  else (s, q)

/-! ## Rendered view (the JSX of GoogleSheetsIntegration.tsx) -/

/-- JavaScript `x || ''` applied to a cell that is already a string
(it replaces only the empty string, with itself). -/
def jsOrEmpty (s : String) : String := if s = "" then "" else s

/-- One rendered table row: for each header index, the cell
`row[colIndex] || ''` (missing cells read as the empty string). -/
def renderRow (headers row : List String) : List String :=
  (List.range headers.length).map fun i => jsOrEmpty (row.getD i "")

/-- The rendered table body: `sheetData.data.slice(0, 5)` mapped through
`renderRow`. -/
def renderRows (headers : List String) (data : List (List String)) :
    List (List String) :=
  (data.take 5).map (renderRow headers)

/-- The table container: rendered only when `headers.length > 0`; yields the
body rows and whether the `Showing first 5 rows of N total rows` note is
shown (`data.length > 5`). -/
def renderTable (headers : List String) (data : List (List String)) :
    Option (List (List String) × Bool) :=
  if headers.length > 0 then
    some (renderRows headers data, decide (data.length > 5))
  else none

/-- Disabled flag of the Connect button: `disabled={isLoading}`. -/
def connectButtonDisabled (s : State) : Bool := s.isLoading

/-- Disabled flag of the spreadsheet card: the card is a `div` with a bare
`onClick`; it carries no `disabled` attribute and no `isLoading` guard. -/
def spreadsheetCardDisabled (_s : State) : Bool := false

/-- Disabled flag of each sheet-selection button: `disabled={isLoading}`. -/
def sheetButtonDisabled (s : State) : Bool := s.isLoading

/-- Disabled flag of the Refresh button: `disabled={isLoading}`. -/
def refreshButtonDisabled (s : State) : Bool := s.isLoading

/-- Disabled flag of the Send to Backend button: `disabled={isLoading}`. -/
def sendButtonDisabled (s : State) : Bool := s.isLoading

/-! ## Completed user actions and reachability -/

/-- One completed controller operation together with the network outcome it
observed. -/
inductive CtrlAction where
  | checkAuth (authResp : NetResult AuthStatusResponse)
      (listResp : NetResult (List SpreadsheetInfo))
  | login (resp : NetResult LoginResponse)
  | logout (resp : NetResult Unit)
  | refresh (resp : NetResult (List SpreadsheetInfo))
  | selectSpreadsheet (b : SpreadsheetInfo)
  | selectSheet (name : String) (resp : NetResult SheetData)
  | send

/-- Effect of one completed action on the controller state. -/
def step (s : State) : CtrlAction → State
  | .checkAuth a l => GoogleSheetsIntegration.checkAuthStatus s a l
  | .login r => GoogleSheetsIntegration.handleLogin s r
  | .logout r => GoogleSheetsIntegration.handleLogout s r
  | .refresh r => GoogleSheetsIntegration.loadSpreadsheets s r
  | .selectSpreadsheet b => GoogleSheetsIntegration.handleSpreadsheetSelect s b
  | .selectSheet n r => GoogleSheetsIntegration.handleSheetSelect s n r
  | .send => GoogleSheetsIntegration.sendToBackend s

/-- States reachable from the initial hook values by completed actions. -/
inductive Reachable : State → Prop where
  | init : Reachable initialState
  | next {s : State} (hs : Reachable s) (a : CtrlAction) : Reachable (step s a)

/-! ## Sample data and distinguished states -/

/-- A sheet whose title is the empty string (the data model places no
constraint on sheet titles). -/
def sampleSheet : SheetInfo :=
  { sheet_id := 0, title := "", sheet_index := 0, sheet_type := "GRID" }

/-- A one-sheet spreadsheet served by the backend. -/
def sampleSpreadsheet : SpreadsheetInfo :=
  { spreadsheet_id := "ss-1", title := "Budget", sheets := [sampleSheet] }

/-- The preview the backend serves for `sampleSpreadsheet`'s sheet. -/
def samplePreview : SheetData :=
  { spreadsheet_id := "ss-1", sheet_name := "", data := [["1", "2"]],
    headers := ["A", "B", "C"] }

/-- An authenticated state with the list loaded, `sampleSpreadsheet`
selected, and its preview loaded: the result of a successful auth check,
a spreadsheet click, and a sheet click. -/
def previewState : State :=
  step
    (step
      (step initialState
        (.checkAuth (.ok { authenticated := true }) (.ok [sampleSpreadsheet])))
      (.selectSpreadsheet sampleSpreadsheet))
    (.selectSheet "" (.ok samplePreview))

/-- The controller state while the Refresh request issued from
`previewState` is still in flight (the pre-request phase of
`loadSpreadsheets` has run, the response has not yet arrived). -/
def midLoadState : State := GoogleSheetsIntegration.loadSpreadsheetsStart previewState

/-! ## Helper lemmas -/

/-- `loadSpreadsheets` only touches the list, the loading flag and the
error banner. -/
theorem loadSpreadsheets_fields (s : State) (r : NetResult (List SpreadsheetInfo)) :
    (GoogleSheetsIntegration.loadSpreadsheets s r).isAuthenticated = s.isAuthenticated ∧
    (GoogleSheetsIntegration.loadSpreadsheets s r).selectedSpreadsheet = s.selectedSpreadsheet ∧
    (GoogleSheetsIntegration.loadSpreadsheets s r).selectedSheet = s.selectedSheet ∧
    (GoogleSheetsIntegration.loadSpreadsheets s r).sheetData = s.sheetData := by
  cases r <;> exact ⟨rfl, rfl, rfl, rfl⟩

/-- The controller's `checkAuthStatus` leaves the selection and the preview
untouched. -/
theorem checkAuthStatus_fields (s : State) (a : NetResult AuthStatusResponse)
    (l : NetResult (List SpreadsheetInfo)) :
    (GoogleSheetsIntegration.checkAuthStatus s a l).selectedSpreadsheet = s.selectedSpreadsheet ∧
    (GoogleSheetsIntegration.checkAuthStatus s a l).selectedSheet = s.selectedSheet ∧
    (GoogleSheetsIntegration.checkAuthStatus s a l).sheetData = s.sheetData := by
  unfold GoogleSheetsIntegration.checkAuthStatus
  cases ha : GoogleSheetsAPI.checkAuthStatus a
  · simp
  · simpa using (loadSpreadsheets_fields { s with isAuthenticated := true } l).2

/-! ## Claims -/

/-- C1: the API client's `checkAuthStatus` returns exactly the response's
`authenticated` field when the request succeeds and `false` on any
transport failure (no error escapes: the function is total into `Bool`),
and the controller stores exactly that value in its authenticated flag. -/
theorem c1_checkAuthStatus_fail_safe :
    (∀ r : AuthStatusResponse, GoogleSheetsAPI.checkAuthStatus (.ok r) = r.authenticated) ∧
    (∀ e : Unit, GoogleSheetsAPI.checkAuthStatus (.error e) = false) ∧
    (∀ (s : State) (a : NetResult AuthStatusResponse)
        (l : NetResult (List SpreadsheetInfo)),
      (GoogleSheetsIntegration.checkAuthStatus s a l).isAuthenticated =
        GoogleSheetsAPI.checkAuthStatus a) := by
  refine ⟨fun r => rfl, fun e => rfl, fun s a l => ?_⟩
  unfold GoogleSheetsIntegration.checkAuthStatus
  cases ha : GoogleSheetsAPI.checkAuthStatus a
  · simp
  · simpa using (loadSpreadsheets_fields { s with isAuthenticated := true } l).1

/-- C2 counterexample: from the reachable authenticated state with the
preview loaded, a logout whose request fails does not reach an
unauthenticated state and does not clear the preview: the claim's
"always", which includes failing logout requests, is false. -/
theorem c2_logout_failure_cex :
    Reachable previewState ∧
    previewState.isAuthenticated = true ∧
    previewState.sheetData ≠ none ∧
    (GoogleSheetsIntegration.handleLogout previewState (.error ())).isAuthenticated = true ∧
    (GoogleSheetsIntegration.handleLogout previewState (.error ())).sheetData ≠ none := by
  refine ⟨?_, by decide, by decide, by decide, by decide⟩
  exact Reachable.next (Reachable.next (Reachable.next Reachable.init _) _) _

/-- C2 as amended: when the logout request succeeds, the resulting state is
unauthenticated with the spreadsheet list empty, the selection null, the
sheet name empty and the preview null (all other fields untouched); when
the request fails, only the error banner is set and the rest of the state,
in particular the authenticated flag, is unchanged. -/
theorem c2_logout_clears_state (s : State) :
    GoogleSheetsIntegration.handleLogout s (.ok ()) =
      { s with
        isAuthenticated := false, spreadsheets := [],
        selectedSpreadsheet := none, selectedSheet := "", sheetData := none } ∧
    GoogleSheetsIntegration.handleLogout s (.error ()) =
      { s with error := "Failed to logout" } :=
  ⟨rfl, rfl⟩

/-- C3: selecting a spreadsheet `b` stores `b` and clears the selected
sheet name and the preview, leaving every other field unchanged; the
handler is synchronous and takes no network outcome, so the clearing
happens before any of `b`'s data can load. -/
theorem c3_spreadsheet_select_clears (s : State) (b : SpreadsheetInfo) :
    GoogleSheetsIntegration.handleSpreadsheetSelect s b =
      { s with
        selectedSpreadsheet := some b, selectedSheet := "",
        sheetData := none } :=
  rfl

/-- C4 counterexample: in the state reached while the Refresh request
issued from the reachable `previewState` is in flight, the loading flag is
true, yet the spreadsheet card still accepts clicks: it is a `div` with a
bare `onClick` and no `disabled={isLoading}` guard, so not all
user-triggered selection actions are disabled while loading is true. -/
theorem c4_spreadsheet_card_enabled_while_loading :
    Reachable previewState ∧
    midLoadState.isLoading = true ∧
    spreadsheetCardDisabled midLoadState = false := by
  refine ⟨?_, by decide, by decide⟩
  exact Reachable.next (Reachable.next (Reachable.next Reachable.init _) _) _

/-- C4 as amended: while the loading flag is true, the sheet-selection
buttons, the Refresh button, the Send-to-Backend button and the Connect
button are all disabled; the spreadsheet card, whose click handler is
synchronous and issues no request, is the exception and stays enabled. -/
theorem c4_loading_disables_buttons (s : State) (h : s.isLoading = true) :
    sheetButtonDisabled s = true ∧
    refreshButtonDisabled s = true ∧
    sendButtonDisabled s = true ∧
    connectButtonDisabled s = true := by
  simp [sheetButtonDisabled, refreshButtonDisabled, sendButtonDisabled,
    connectButtonDisabled, h]

/-- Witness for `c4_loading_disables_buttons` at the in-flight refresh
state. -/
theorem c4_loading_disables_buttons_witness :
    sheetButtonDisabled midLoadState = true ∧
    refreshButtonDisabled midLoadState = true ∧
    sendButtonDisabled midLoadState = true ∧
    connectButtonDisabled midLoadState = true :=
  c4_loading_disables_buttons midLoadState (by decide)

/-- C5: on mount after the OAuth redirect, a query whose `auth` parameter
reads `success` flips the authenticated flag and strips the whole query
from the visible URL; a query whose `auth` parameter reads `error` puts
`urlParams.get('message') || 'Authentication failed'` in the error banner
(the default both when `message` is absent and when it is present but
empty, JavaScript `||` on a falsy value) and also strips the query; and on
the stripped (empty) query the handler is the identity, so each outcome is
consumed exactly once. -/
theorem c5_oauth_callback (s : State) (q : List (String × String)) :
    (getParam q "auth" = some "success" →
      GoogleSheetsIntegration.handleOAuthCallback s q =
        ({ s with isAuthenticated := true }, [])) ∧
    (getParam q "auth" = some "error" →
      GoogleSheetsIntegration.handleOAuthCallback s q =
        ({ s with
            error := jsOrDefault (getParam q "message") "Authentication failed" }, [])) ∧
    GoogleSheetsIntegration.handleOAuthCallback s [] = (s, []) := by
  refine ⟨fun h => ?_, fun h => ?_, rfl⟩
  · simp [GoogleSheetsIntegration.handleOAuthCallback, h]
  · simp [GoogleSheetsIntegration.handleOAuthCallback, h]

/-- Witness for `c5_oauth_callback` on the concrete queries
`?auth=success`, `?auth=error&message=denied` and the present-but-empty
`?auth=error&message=` (which shows the default). -/
theorem c5_oauth_callback_witness :
    GoogleSheetsIntegration.handleOAuthCallback initialState [("auth", "success")] =
      ({ initialState with isAuthenticated := true }, []) ∧
    GoogleSheetsIntegration.handleOAuthCallback initialState
        [("auth", "error"), ("message", "denied")] =
      ({ initialState with error := "denied" }, []) ∧
    GoogleSheetsIntegration.handleOAuthCallback initialState
        [("auth", "error"), ("message", "")] =
      ({ initialState with error := "Authentication failed" }, []) := by
  refine ⟨?_, ?_, ?_⟩
  · exact (c5_oauth_callback initialState [("auth", "success")]).1 (by decide)
  · have h := (c5_oauth_callback initialState
      [("auth", "error"), ("message", "denied")]).2.1 (by decide)
    rw [h]
    decide
  · have h := (c5_oauth_callback initialState
      [("auth", "error"), ("message", "")]).2.1 (by decide)
    rw [h]
    decide

/-- C7: `getSheetData` requests exactly the path built from the
percent-encoding of the sheet name; the encoding is a function of the name
alone, so two calls with equal names yield equal encoded segments; and the
name `Sales Q1` encodes to `Sales%20Q1` on every invocation. -/
theorem c7_sheet_name_encoding (spreadsheetId sheetName : String) :
    GoogleSheetsAPI.sheetDataUrl spreadsheetId sheetName =
      API_BASE_URL ++ "/spreadsheet/" ++ spreadsheetId ++ "/sheet/" ++
        encodeURIComponent sheetName ∧
    (∀ n1 n2 : String, n1 = n2 → encodeURIComponent n1 = encodeURIComponent n2) ∧
    encodeURIComponent "Sales Q1" = "Sales%20Q1" :=
  ⟨rfl, fun _ _ h => h ▸ rfl, by decide⟩

/-- Witness for `c7_sheet_name_encoding` at a concrete spreadsheet id and
the sheet name `Sales Q1`. -/
theorem c7_sheet_name_encoding_witness :
    GoogleSheetsAPI.sheetDataUrl "abc" "Sales Q1" =
      "http://localhost:8082/spreadsheet/abc/sheet/Sales%20Q1" ∧
    encodeURIComponent "Sales Q1" = encodeURIComponent "Sales Q1" := by
  have h := c7_sheet_name_encoding "abc" "Sales Q1"
  refine ⟨?_, h.2.1 "Sales Q1" "Sales Q1" rfl⟩
  rw [h.1, h.2.2]
  decide

/-- C10: each of the four user-triggered request-issuing actions — login,
load/refresh spreadsheets, sheet selection, send to backend — passes
through a pre-request phase whose error banner is the empty string, so no
stale message survives the start of a new such action; logout has no such
phase and a successful logout leaves the banner exactly as it was. -/
theorem c10_error_cleared_before_request (s : State) (name : String) :
    (GoogleSheetsIntegration.handleLoginStart s).error = "" ∧
    (GoogleSheetsIntegration.loadSpreadsheetsStart s).error = "" ∧
    (GoogleSheetsIntegration.handleSheetSelectStart s name).error = "" ∧
    (GoogleSheetsIntegration.sendToBackendStart s).error = "" ∧
    (GoogleSheetsIntegration.handleLogout s (.ok ())).error = s.error :=
  ⟨rfl, rfl, rfl, rfl, rfl⟩

/-- JavaScript `x || ''` is the identity on strings. -/
theorem jsOrEmpty_id (s : String) : jsOrEmpty s = s := by
  unfold jsOrEmpty
  split
  · simp_all
  · rfl

/-- The rendered row, with the `|| ''` coercion simplified away. -/
theorem renderRow_eq (headers row : List String) :
    renderRow headers row = (List.range headers.length).map fun i => row.getD i "" := by
  simp [renderRow, jsOrEmpty_id]

/-- Reading the first `n` cells of a row shorter than `n` pads it with
empty strings up to length `n`. -/
theorem range_map_getD_pad (row : List String) (n : Nat) (h : row.length ≤ n) :
    ((List.range n).map fun i => row.getD i "") =
      row ++ List.replicate (n - row.length) "" := by
  induction row generalizing n with
  | nil => simp [List.getD_nil, List.map_const']
  | cons a row ih =>
    cases n with
    | zero => simp at h
    | succ m =>
      have h' : row.length ≤ m := by simp at h; omega
      rw [List.range_succ_eq_map, List.map_cons, List.map_map]
      simp only [Function.comp_def, List.getD_cons_zero, List.getD_cons_succ]
      rw [ih m h']
      simp [Nat.succ_sub_succ]

/-- Reading the first `n` cells of a row of length at least `n` truncates
it to its first `n` cells. -/
theorem range_map_getD_take (row : List String) (n : Nat) (h : n ≤ row.length) :
    ((List.range n).map fun i => row.getD i "") = row.take n := by
  induction row generalizing n with
  | nil =>
    have : n = 0 := by simpa using h
    subst this
    simp
  | cons a row ih =>
    cases n with
    | zero => simp
    | succ m =>
      have h' : m ≤ row.length := by simp at h; omega
      rw [List.range_succ_eq_map, List.map_cons, List.map_map]
      simp only [Function.comp_def, List.getD_cons_zero, List.getD_cons_succ]
      rw [ih m h']
      simp [List.take_succ_cons]

/-- C8: a data row shorter than the header sequence renders as itself
padded with empty strings to the full header width — the row is neither
dropped nor truncated, the missing trailing cells show as the empty
string, and in particular headers `A B C` with the row `1 2` render as
`1 2 <empty>`. -/
theorem c8_short_row_pads (headers row : List String) (h : row.length ≤ headers.length) :
    renderRow headers row = row ++ List.replicate (headers.length - row.length) "" ∧
    (renderRow headers row).length = headers.length ∧
    renderRows ["A", "B", "C"] [["1", "2"]] = [["1", "2", ""]] := by
  refine ⟨?_, ?_, by decide⟩
  · rw [renderRow_eq]
    exact range_map_getD_pad row headers.length h
  · simp [renderRow]

/-- Witness for `c8_short_row_pads` on headers `A B C` and the row `1 2`. -/
theorem c8_short_row_pads_witness :
    renderRow ["A", "B", "C"] ["1", "2"] =
      ["1", "2"] ++ List.replicate 1 "" ∧
    (renderRow ["A", "B", "C"] ["1", "2"]).length = 3 ∧
    renderRows ["A", "B", "C"] [["1", "2"]] = [["1", "2", ""]] :=
  c8_short_row_pads ["A", "B", "C"] ["1", "2"] (by decide)

/-- C9 counterexample: with an empty header sequence and six data rows the
table container is not rendered at all (`headers.length > 0` guards it),
so the `Showing first 5 rows` note does not appear even though there are
more than 5 rows: the note does not appear exactly when the row count
exceeds 5. -/
theorem c9_empty_headers_cex :
    (List.replicate 6 ([] : List String)).length > 5 ∧
    renderTable [] (List.replicate 6 ([] : List String)) = none := by
  decide

/-- C9 as amended: provided the header sequence is non-empty, the rendered
table shows exactly the first `min 5 n` of the `n` data rows in their
original order, every rendered row has exactly `headers.length` cells,
cells beyond the header count are dropped, and the total-row-count note
appears exactly when there are more than 5 rows. -/
theorem c9_table_first_five (headers : List String) (data : List (List String))
    (h : headers ≠ []) :
    renderTable headers data =
      some ((data.take 5).map (renderRow headers), decide (data.length > 5)) ∧
    (renderRows headers data).length = min data.length 5 ∧
    (∀ row, (renderRow headers row).length = headers.length) ∧
    (∀ row, headers.length ≤ row.length →
      renderRow headers row = row.take headers.length) := by
  refine ⟨?_, ?_, fun row => by simp [renderRow], fun row hr => ?_⟩
  · simp [renderTable, renderRows, List.length_pos.mpr h]
  · simp [renderRows, List.length_take, Nat.min_comm]
  · rw [renderRow_eq]
    exact range_map_getD_take row headers.length hr

/-- Witness for `c9_table_first_five` on one header and one two-cell row. -/
theorem c9_table_first_five_witness :
    renderTable ["A"] [["x", "y"]] = some ([["x"]], false) ∧
    renderRow ["A"] ["x", "y"] = ["x"] := by
  have h := c9_table_first_five ["A"] [["x", "y"]] (by decide)
  constructor
  · rw [h.1]
    decide
  · rw [h.2.2.2 ["x", "y"] (by decide)]
    decide

/-- The preview-hierarchy invariant that does hold: a non-null preview
implies a non-null selected spreadsheet. -/
def sheetDataInv (s : State) : Prop :=
  s.sheetData ≠ none → s.selectedSpreadsheet ≠ none

/-- The invariant as claimed: a non-null preview implies a non-null
selected spreadsheet and a non-empty selected sheet name. -/
def fullSheetInv (s : State) : Prop :=
  s.sheetData ≠ none → s.selectedSpreadsheet ≠ none ∧ s.selectedSheet ≠ ""

/-- An action whose sheet-select name, if any, is non-empty. -/
def nonEmptySheetName : CtrlAction → Prop
  | .selectSheet name _ => name ≠ ""
  | _ => True

/-- Equal selection and preview fields transport both invariants. -/
theorem inv_of_fields_eq {s t : State}
    (h1 : t.selectedSpreadsheet = s.selectedSpreadsheet)
    (h2 : t.selectedSheet = s.selectedSheet)
    (h3 : t.sheetData = s.sheetData) :
    (sheetDataInv s → sheetDataInv t) ∧ (fullSheetInv s → fullSheetInv t) := by
  unfold sheetDataInv fullSheetInv
  rw [h1, h2, h3]
  exact ⟨id, id⟩

/-- A state whose preview is null satisfies both invariants. -/
theorem inv_of_sheetData_none {t : State} (h : t.sheetData = none) :
    sheetDataInv t ∧ fullSheetInv t := by
  unfold sheetDataInv fullSheetInv
  rw [h]
  exact ⟨fun hc => absurd rfl hc, fun hc => absurd rfl hc⟩

/-- C6 counterexample: the claim's invariant fails in a reachable state.
The backend may serve a sheet whose title is the empty string
(`sampleSpreadsheet`); clicking its button runs `handleSheetSelect` with
the name `""`, which stores the preview while `selectedSheet` stays empty. -/
theorem c6_empty_sheet_name_cex :
    Reachable previewState ∧
    previewState.sheetData ≠ none ∧
    previewState.selectedSheet = "" := by
  refine ⟨?_, by decide, by decide⟩
  exact Reachable.next (Reachable.next (Reachable.next Reachable.init _) _) _

/-- C6 as amended: every controller operation preserves the invariant
`sheetData ≠ none → selectedSpreadsheet ≠ none`; the stronger claimed
invariant, which also requires `selectedSheet ≠ ""`, is preserved provided
the sheet-select action carries a non-empty sheet name (sheet titles, and
hence the names the buttons pass, may be empty). -/
theorem c6_preview_invariant (s : State) (a : CtrlAction) :
    (sheetDataInv s → sheetDataInv (step s a)) ∧
    (fullSheetInv s → nonEmptySheetName a → fullSheetInv (step s a)) := by
  cases a with
  | checkAuth ar lr =>
    have h := checkAuthStatus_fields s ar lr
    have := inv_of_fields_eq h.1 h.2.1 h.2.2
    exact ⟨this.1, fun hf _ => this.2 hf⟩
  | login r =>
    cases r with
    | ok v => exact ⟨id, fun hf _ => hf⟩
    | error e => exact ⟨id, fun hf _ => hf⟩
  | logout r =>
    cases r with
    | ok v =>
      have := inv_of_sheetData_none
        (t := GoogleSheetsIntegration.handleLogout s (.ok v)) rfl
      exact ⟨fun _ => this.1, fun _ _ => this.2⟩
    | error e => exact ⟨id, fun hf _ => hf⟩
  | refresh r =>
    have h := loadSpreadsheets_fields s r
    have := inv_of_fields_eq h.2.1 h.2.2.1 h.2.2.2
    exact ⟨this.1, fun hf _ => this.2 hf⟩
  | selectSpreadsheet b =>
    have := inv_of_sheetData_none
      (t := GoogleSheetsIntegration.handleSpreadsheetSelect s b) rfl
    exact ⟨fun _ => this.1, fun _ _ => this.2⟩
  | selectSheet name r =>
    simp only [step]
    unfold GoogleSheetsIntegration.handleSheetSelect
    cases hsel : s.selectedSpreadsheet with
    | none => exact ⟨id, fun hf _ => hf⟩
    | some sel =>
      cases r with
      | ok d =>
        refine ⟨fun _ => ?_, fun _ hn => ?_⟩
        · unfold sheetDataInv
          intro _
          simp [GoogleSheetsIntegration.handleSheetSelectStart,
            GoogleSheetsAPI.getSheetData, hsel]
        · unfold fullSheetInv
          intro _
          simp only [nonEmptySheetName] at hn
          simp [GoogleSheetsIntegration.handleSheetSelectStart,
            GoogleSheetsAPI.getSheetData, hsel, hn]
      | error e =>
        refine ⟨fun hs0 => ?_, fun hf hn => ?_⟩
        · unfold sheetDataInv at hs0 ⊢
          intro hd
          simp [GoogleSheetsIntegration.handleSheetSelectStart,
            GoogleSheetsAPI.getSheetData, hsel]
        · unfold fullSheetInv
          intro _
          simp only [nonEmptySheetName] at hn
          simp [GoogleSheetsIntegration.handleSheetSelectStart,
            GoogleSheetsAPI.getSheetData, hsel, hn]
  | send =>
    simp only [step]
    unfold GoogleSheetsIntegration.sendToBackend
    cases hd : s.sheetData with
    | none => exact ⟨id, fun hf _ => hf⟩
    | some d =>
      refine ⟨fun hs0 => ?_, fun hf hn => ?_⟩
      · unfold sheetDataInv at hs0 ⊢
        intro _
        simpa [GoogleSheetsIntegration.sendToBackendStart] using hs0 (by simp [hd])
      · unfold fullSheetInv at hf ⊢
        intro _
        simpa [GoogleSheetsIntegration.sendToBackendStart] using hf (by simp [hd])

/-- Witness for `c6_preview_invariant`: both invariants hold after a send
action from the initial state. -/
theorem c6_preview_invariant_witness :
    sheetDataInv (step initialState .send) ∧
    fullSheetInv (step initialState .send) :=
  ⟨(c6_preview_invariant initialState .send).1 (fun h => absurd rfl h),
   (c6_preview_invariant initialState .send).2 (fun h => absurd rfl h) trivial⟩
